import Mathlib

/-!
Verification of the poker-review application (`src/app.py`).

The file shallowly embeds the data model and the pure operations of the
application: the amount validator `validate_amount`, the action-line
normalizer `normalize_line`, the per-street flow structures and
`build_flow_text`, the position catalog and `remaining_positions`, the
52-card catalog together with the slot-selection rule of `pick_card` /
`selectable_cards`, and the advisory call `call_gpt` (with its network
transport abstracted as an `Except` outcome, since the real HTTP call is
not representable).  Strings are modelled at the level of their character
sequences; Python `str.strip` / `str.isdigit` / `int` are modelled at the
ASCII level, which is the level the specification speaks at ("decimal
digits").
-/

/-- Python `str.strip()` (ASCII-whitespace level of the model): drop
leading and trailing whitespace characters. -/
def pyStrip (s : String) : String :=
  String.mk (((s.data.dropWhile Char.isWhitespace).reverse.dropWhile Char.isWhitespace).reverse)

/-- Python `str.replace(",", "")`: remove every comma character. -/
def pyRemoveCommas (s : String) : String :=
  String.mk (s.data.filter (fun c => c ≠ ','))

/-- Python `str.isdigit()` (ASCII level): non-empty and every character a
decimal digit. -/
def pyIsdigit (s : String) : Bool :=
  !s.data.isEmpty && s.data.all Char.isDigit

/-- Python `int(...)` on a decimal-digit string: the base-10 value. -/
def pyInt (s : String) : Nat :=
  s.data.foldl (fun acc c => acc * 10 + (c.toNat - 48)) 0

/-- `validate_amount` (app.py lines 101-108): strip whitespace, remove
commas; empty is OK (for actions that need no amount); otherwise the
cleaned text must be all digits with a positive value. -/
def validate_amount (txt : String) : Bool × Option String :=
  let t := pyRemoveCommas (pyStrip txt)
  if t = "" then (true, some "")
  else if ¬ pyIsdigit t = true ∨ pyInt t ≤ 0 then (false, none)
  else (true, some t)

/-- The specification's wording for `normalizeAmount`: strip and remove
commas; `(true, "")` on empty, `(true, cleaned)` when the cleaned string
consists entirely of decimal digits and its integer value is strictly
positive, `(false, null)` otherwise. -/
def validate_amount_spec (txt : String) : Bool × Option String :=
  let t := pyRemoveCommas (pyStrip txt)
  if t = "" then (true, some "")
  else if (∀ c ∈ t.data, c.isDigit = true) ∧ 0 < pyInt t then (true, some t)
  else (false, none)

/-- The error message `normalize_line` returns for a missing/invalid
amount (the spec labels this error kind "amount-required-or-invalid"). -/
def AMOUNT_ERROR : String := "金額は正の数字で入力してください"

/-- `normalize_line` (app.py lines 111-123): actions outside
check/fold/call need an amount; result is `(ok, rendered, error)`.
`validate_amount` returns `some` cleaned text whenever it returns `true`,
so `v.getD ""` is exactly the Python `v`. -/
def normalize_line (pos act amt : String) : Bool × Option String × String :=
  if act ∉ (["check", "fold", "call"] : List String) then
    match validate_amount amt with
    | (false, _) => (false, none, AMOUNT_ERROR)
    | (true, v) => (true, some (pos ++ " " ++ act ++ " " ++ v.getD ""), "")
  else (true, some (pos ++ " " ++ act), "")

/-- One action row of a street: position, action, raw amount text
(the pos/act/amt dictionaries of app.py). -/
structure Row where
  pos : String
  act : String
  amt : String
  deriving DecidableEq, Repr

/-- The per-street action rows of `st.session_state.flow`. -/
structure FlowState where
  pre : List Row
  flop : List Row
  turn : List Row
  river : List Row
  deriving DecidableEq, Repr

/-- The loop body of `join` inside `build_flow_text` (app.py lines
412-417): normalize each row and keep the rendered text of the valid
ones.  `normalize_line` renders `some` text whenever it returns `true`,
so `t.getD ""` is exactly the Python `text`. -/
def collect_valid : List Row → List String
  | [] => []
  | r :: rest =>
    match normalize_line r.pos r.act r.amt with
    | (true, t, _) => t.getD "" :: collect_valid rest
    | (false, _, _) => collect_valid rest

/-- The `join` helper of `build_flow_text` (app.py line 418):
`" / ".join(out) if out else "（なし）"`. -/
def street_join (rows : List Row) : String :=
  if collect_valid rows = [] then "（なし）" else String.intercalate " / " (collect_valid rows)

/-- `build_flow_text` (app.py lines 410-427): the four streets in fixed
order, each street's joined valid lines after its label. -/
def build_flow_text (f : FlowState) : String :=
  "・プリフロップ\n　" ++ street_join f.pre ++ "\n・フロップ\n　" ++ street_join f.flop ++
    "\n・ターン\n　" ++ street_join f.turn ++ "\n・リバー\n　" ++ street_join f.river

/-- The scenario flow of the specification: preflop `[UTG open 3]`,
flop `[Hero bet 5]`, turn and river empty. -/
def example_flow : FlowState :=
  ⟨[⟨"UTG", "open", "3"⟩], [⟨"Hero", "bet", "5"⟩], [], []⟩

/-- An opponent entry of `st.session_state.villains`: position and
archetype. -/
structure Villain where
  pos : String
  type : String
  deriving DecidableEq, Repr

/-- The session state fields of app.py (lines 127-146): opponents,
per-street flow, chat history, chat-visibility flag. -/
structure Session where
  villains : List Villain
  flow : FlowState
  messages : List (String × String)
  show_chat : Bool

/-- `build_flow_text` reads only the `flow` field of the session state. -/
def build_flow_text_session (s : Session) : String :=
  build_flow_text s.flow

/-- The default row appended by the "+ 行を追加" button of `street_block`
(app.py lines 385-392). -/
def add_action_row (rows : List Row) (postflop : Bool) : List Row :=
  rows ++ [⟨if postflop then "Hero" else "UTG", if postflop then "check" else "open", ""⟩]

/-- `POS_ALL` (app.py line 19): the 6-position catalog. -/
def POS_ALL : List String := ["UTG", "HJ", "CO", "BTN", "SB", "BB"]

/-- The `used_pos` set of `remaining_positions` (app.py line 243):
the self position together with every registered opponent position. -/
def used_pos (pos_self : String) (villains : List Villain) : List String :=
  pos_self :: villains.map Villain.pos

/-- `remaining_positions` (app.py lines 241-244): the catalog filtered to
the positions not yet used, in catalog order. -/
def remaining_positions (pos_self : String) (villains : List Villain) : List String :=
  POS_ALL.filter (fun p => p ∉ used_pos pos_self villains)

/-- `SUITS_ORDER` (app.py line 17). -/
def SUITS_ORDER : List String := ["♠", "♣", "♦", "♥"]

/-- `RANKS_ORDER` (app.py line 18). -/
def RANKS_ORDER : List String :=
  ["A", "2", "3", "4", "5", "6", "7", "8", "9", "T", "J", "Q", "K"]

/-- `gen_cards` (app.py lines 77-79): rank-then-suit text for s, r in
`product(SUITS_ORDER, RANKS_ORDER)` — the suit varies slower than the
rank. -/
def gen_cards : List String :=
  SUITS_ORDER.flatMap (fun s => RANKS_ORDER.map (fun r => r ++ s))

/-- `ALL_CARDS` (app.py line 82). -/
def ALL_CARDS : List String := gen_cards

/-- `selectable_cards` (app.py lines 193-195): the catalog without the
already-used cards. -/
def selectable_cards (exclude : List String) : List String :=
  ALL_CARDS.filter (fun c => c ∉ exclude)

/-- The current-value resolution rule of `pick_card` (app.py lines
204-207): the stored session value if it is still offered, otherwise the
first offered card (`choices[0]`; every call site passes a non-empty
`choices`, the `headD` default is never reached under the theorems'
hypotheses). -/
def resolve_current (stored : Option String) (choices : List String) : String :=
  match stored with
  | some c => if c ∈ choices then c else choices.headD ""
  | none => choices.headD ""

/-- `pick_card` (app.py lines 198-214): the select box offers `choices`,
preselected at the resolved current value; the user may move the
selection to any offered choice, so the pick is an optional override
that only takes effect when it is one of the offered choices. -/
def pick_card (stored userPick : Option String) (choices : List String) : String :=
  match userPick with
  | some u => if u ∈ choices then u else resolve_current stored choices
  | none => resolve_current stored choices

/-- One top-to-bottom pass over the card slots (hero 1, hero 2, flop 1-3,
turn, river — app.py lines 218-313): each slot is resolved against the
choices that exclude the cards already taken by the earlier slots, and
the chosen card is added to `used_cards`.  Each input is the pair of the
stored session value and the user's pick for that slot. -/
def run_card_selection : List (Option String × Option String) → List String → List String
  | [], _ => []
  | (stored, userPick) :: rest, used =>
    let c := pick_card stored userPick (selectable_cards used)
    c :: run_card_selection rest (used ++ [c])

/-- The configuration warning `call_gpt` returns when the credential is
missing (app.py line 34). -/
def CONFIG_WARNING : String :=
  "⚠️ OPENAI_API_KEY が設定されていません（Render の Environment に追加してください）"

/-- The placeholder `call_gpt` returns for an empty model reply
(app.py line 73). -/
def EMPTY_REPLY : String := "（空の応答）"

/-- The difficulty-keyed system preamble of `call_gpt` (app.py lines
37-41): a three-entry exact-match table with a generic fallback. -/
def sys_for_level (level : String) : String :=
  if level = "初級" then "あなたは初心者向けのポーカーコーチ。専門用語を避け、簡潔に。"
  else if level = "中級" then "あなたは中級者向けコーチ。レンジ/ポジション/ベットサイズの意図を具体的に。"
  else if level = "上級(近似)" then "あなたはGTO的思考手順を近似で説明する上級コーチ。バランス/混合戦略を踏まえて。"
  else "あなたはポーカーコーチ。"

/-- The opponent block of the prompt (app.py line 43): joined
`- pos: type` lines, or the placeholder when the join is empty. -/
def vtext (villains : List Villain) : String :=
  let s := String.intercalate "\n" (villains.map (fun v => "- " ++ v.pos ++ ": " ++ v.type))
  if s = "" then "（未指定）" else s

/-- The board block of the prompt (app.py line 44): blank-joined nonempty
cards, or the placeholder when the join is empty. -/
def btext (board : List String) : String :=
  let s := String.intercalate " " (board.filter (fun c => c ≠ ""))
  if s = "" then "（未指定）" else s

/-- The user prompt f-string of `call_gpt` (app.py lines 45-65). -/
def user_prompt (level h1 h2 : String) (board : List String) (villains : List Villain)
    (flow_text : String) : String :=
  "ハンド解説依頼\n難易度: " ++ level ++ "\n\n# ハンド\nHero: " ++ h1 ++ " " ++ h2 ++
    "\n\n# ボード\n" ++ btext board ++ "\n\n# 相手タイプ\n" ++ vtext villains ++
    "\n\n# 流れ\n" ++ flow_text ++
    "\n\n# 出力フォーマット\n- 最初に結論（1〜3行）\n- 各ストリートの方針とベットサイズ指針（プリ 2.2/3bb、ポスト 33/66/100/AI）\n- 想定レンジ（相手/自分）と主要ハンド例\n- よくあるミスと修正ポイント\n"

/-- `call_gpt` (app.py lines 31-75).  `clientOk` models the `_gpt`
client having been constructed; `apiKey` models
`os.environ.get("OPENAI_API_KEY", "")` (absent and empty are both
falsy); `transport` abstracts the provider call inside the `try` block:
`Except.error e` is a raised provider/transport exception with message
`e`, `Except.ok content` is a completed call whose reply content is
`content` (`none` models a null content field).  A result of
`Except.error` for the whole function models an exception escaping
`call_gpt` itself: the subscripts `hero_cards[0]` / `hero_cards[1]` in
the prompt f-string are evaluated outside the `try` block and raise
`IndexError` when fewer than two hero cards are supplied. -/
def call_gpt (clientOk : Bool) (apiKey level : String) (hero_cards board : List String)
    (villains : List Villain) (flow_text : String)
    (transport : Except String (Option String)) : Except String String :=
  if clientOk = false ∨ apiKey = "" then Except.ok CONFIG_WARNING
  else
    let _sys := sys_for_level level
    let _vt := vtext villains
    let _bt := btext board
    match hero_cards with
    | h1 :: h2 :: _ =>
      let _user := user_prompt level h1 h2 board villains flow_text
      match transport with
      | Except.error e => Except.ok ("LLM呼び出しエラー: " ++ e)
      | Except.ok content =>
        match content with
        | some r => Except.ok (if r = "" then EMPTY_REPLY else r)
        | none => Except.ok EMPTY_REPLY
    | _ => Except.error "IndexError: list index out of range"

/-- C1: the claim says that for a money action (here "bet") and the empty
raw amount, `normalize_line` returns invalid with the
amount-required-or-invalid error and no rendered text.  The code instead
accepts the row: `validate_amount ""` succeeds with the empty cleaned
string, so the line is rendered valid with a trailing blank — this
contradicts the function's own contract that an amount is required for
actions outside check/fold/call.  This theorem evaluates the code at the
failing input. -/
theorem C1_code_eval_empty_amount :
    normalize_line "BTN" "bet" "" = (true, some "BTN bet ", "") := by
  decide

/-- C2: `validate_amount` strips whitespace, removes commas, accepts the
empty cleaned string as `(true, "")`, accepts an all-decimal-digit
cleaned string with strictly positive value as `(true, cleaned)`, and
rejects everything else as `(false, none)`; in particular on "200", "",
"-5", "2,000" and "abc". -/
theorem C2_validate_amount_matches_spec :
    (∀ s : String, validate_amount s = validate_amount_spec s)
    ∧ validate_amount "200" = (true, some "200")
    ∧ validate_amount "" = (true, some "")
    ∧ validate_amount "-5" = (false, none)
    ∧ validate_amount "2,000" = (true, some "2000")
    ∧ validate_amount "abc" = (false, none) := by
  refine ⟨?_, by decide, by decide, by decide, by decide, by decide⟩
  intro s
  unfold validate_amount validate_amount_spec
  dsimp only
  set t := pyRemoveCommas (pyStrip s) with ht
  by_cases h : t = ""
  · simp [h]
  · rw [if_neg h, if_neg h]
    have hne : t.data ≠ [] := by
      intro hd
      exact h (String.ext (by rw [hd]))
    have hd : pyIsdigit t = t.data.all Char.isDigit := by
      simp [pyIsdigit, List.isEmpty_iff, hne]
    have hiff : (¬ pyIsdigit t = true ∨ pyInt t ≤ 0) ↔
        ¬ ((∀ c ∈ t.data, c.isDigit = true) ∧ 0 < pyInt t) := by
      rw [hd, List.all_eq_true]
      constructor
      · rintro (ha | hb) ⟨h1, h2⟩
        · exact ha h1
        · omega
      · intro hn
        by_cases ha : ∀ c ∈ t.data, c.isDigit = true
        · right
          by_contra hb
          push_neg at hb
          exact hn ⟨ha, by omega⟩
        · left
          exact ha
    by_cases hc : (∀ c ∈ t.data, c.isDigit = true) ∧ 0 < pyInt t
    · rw [if_neg (fun hcond => (hiff.mp hcond) hc), if_pos hc]
    · rw [if_pos (hiff.mpr hc), if_neg hc]

/-- C9: `normalize_line` is total over all position, action and amount
strings: it always returns a well-formed triple — either valid with a
rendered text and an empty error, or invalid with no rendered text and
the amount error message. -/
theorem C9_normalize_line_total : ∀ pos act amt : String,
    (∃ t, normalize_line pos act amt = (true, some t, ""))
    ∨ normalize_line pos act amt = (false, none, AMOUNT_ERROR) := by
  intro pos act amt
  unfold normalize_line
  by_cases h : act ∉ (["check", "fold", "call"] : List String)
  · rw [if_pos h]
    rcases hv : validate_amount amt with ⟨b, v⟩
    cases b
    · exact Or.inr rfl
    · exact Or.inl ⟨_, rfl⟩
  · rw [if_neg h]
    exact Or.inl ⟨_, rfl⟩

/-- C10: for an action in check/fold/call, `normalize_line` returns the
valid rendered line "position action" with an empty error, for every raw
amount string — the amount is discarded unvalidated and never rendered. -/
theorem C10_amount_discarded_for_no_money_actions (pos act amt : String)
    (h : act ∈ (["check", "fold", "call"] : List String)) :
    normalize_line pos act amt = (true, some (pos ++ " " ++ act), "") := by
  unfold normalize_line
  rw [if_neg (not_not_intro h)]

/-- Witness for C10 at position "BTN", action "check" and the otherwise
invalid amount "abc". -/
theorem C10_witness :
    normalize_line "BTN" "check" "abc" = (true, some "BTN check", "") := by
  have h := C10_amount_discarded_for_no_money_actions "BTN" "check" "abc" (by decide)
  exact h

/-- Dropping a row whose normalization is invalid does not change the
collected valid lines. -/
lemma collect_valid_drop (pre1 pre2 : List Row) (r : Row)
    (h : (normalize_line r.pos r.act r.amt).1 = false) :
    collect_valid (pre1 ++ r :: pre2) = collect_valid (pre1 ++ pre2) := by
  induction pre1 with
  | nil =>
    show collect_valid (r :: pre2) = collect_valid pre2
    rcases hv : normalize_line r.pos r.act r.amt with ⟨b, o, e⟩
    rw [hv] at h
    cases b
    · simp [collect_valid, hv]
    · simp at h
  | cons q qs ih =>
    show collect_valid (q :: (qs ++ r :: pre2)) = collect_valid (q :: (qs ++ pre2))
    rcases hq : normalize_line q.pos q.act q.amt with ⟨b, o, e⟩
    cases b <;> simp [collect_valid, hq, ih]

/-- C4: `build_flow_text` renders the four streets in the fixed order
preflop/flop/turn/river; a row whose normalization is invalid is silently
dropped; a street's valid lines are joined with " / "; a street whose
join is empty renders the placeholder; and on the scenario flow the
preflop line reads "UTG open 3", the flop line "Hero bet 5", and turn
and river show the placeholder. -/
theorem C4_build_flow_text_streets :
    build_flow_text example_flow =
      "・プリフロップ\n　UTG open 3\n・フロップ\n　Hero bet 5\n・ターン\n　（なし）\n・リバー\n　（なし）"
    ∧ (∀ f : FlowState, build_flow_text f =
        "・プリフロップ\n　" ++ street_join f.pre ++ "\n・フロップ\n　" ++ street_join f.flop ++
          "\n・ターン\n　" ++ street_join f.turn ++ "\n・リバー\n　" ++ street_join f.river)
    ∧ (∀ (pre1 pre2 : List Row) (r : Row), (normalize_line r.pos r.act r.amt).1 = false →
        street_join (pre1 ++ r :: pre2) = street_join (pre1 ++ pre2))
    ∧ (∀ rows : List Row, collect_valid rows ≠ [] →
        street_join rows = String.intercalate " / " (collect_valid rows))
    ∧ (∀ rows : List Row, collect_valid rows = [] → street_join rows = "（なし）") := by
  refine ⟨by decide, fun f => rfl, ?_, ?_, ?_⟩
  · intro pre1 pre2 r h
    unfold street_join
    rw [collect_valid_drop pre1 pre2 r h]
  · intro rows h
    unfold street_join
    rw [if_neg h]
  · intro rows h
    unfold street_join
    rw [if_pos h]

/-- Witness for C4: inserting the invalidly-normalized row
"SB raise abc" into an empty street leaves the street's join unchanged. -/
theorem C4_witness :
    street_join ([] ++ ⟨"SB", "raise", "abc"⟩ :: []) = street_join ([] ++ ([] : List Row)) :=
  C4_build_flow_text_streets.2.2.1 [] [] ⟨"SB", "raise", "abc"⟩ (by decide)

/-- C6 counterexample: for the preflop street, the appended default row
carries the action "open", which is not one of the no-amount actions
check/fold/call — so the claim that the default action is always a
street-appropriate "no-money" action fails for preflop. -/
theorem C6_counterexample :
    (add_action_row [] false).map Row.act = ["open"]
    ∧ (["check", "fold", "call"].elem "open") = false := by
  decide

/-- C6 (amended): `add_action_row` appends a default row whose position
is Hero for postflop streets and UTG for preflop; the default action is
"check" for postflop — an action in the no-amount set check/fold/call —
but "open" for preflop, which is outside that set and therefore requires
an amount. -/
theorem C6_add_action_row_amended : ∀ rows : List Row,
    add_action_row rows true = rows ++ [⟨"Hero", "check", ""⟩]
    ∧ add_action_row rows false = rows ++ [⟨"UTG", "open", ""⟩]
    ∧ (["check", "fold", "call"].elem "check") = true
    ∧ (["check", "fold", "call"].elem "open") = false := by
  intro rows
  exact ⟨rfl, rfl, by decide, by decide⟩

/-- C7: `build_flow_text` is a pure function of the session's per-street
action rows: two sessions with identical flow content — whatever their
opponents, chat history or visibility flag — produce byte-identical
output, and repeated calls on an unchanged session return the same
string. -/
theorem C7_build_flow_text_deterministic :
    (∀ s1 s2 : Session, s1.flow = s2.flow →
      build_flow_text_session s1 = build_flow_text_session s2)
    ∧ (∀ s : Session, build_flow_text_session s = build_flow_text_session s) := by
  refine ⟨?_, fun s => rfl⟩
  intro s1 s2 h
  unfold build_flow_text_session
  rw [h]

/-- Witness for C7: two sessions with the same flow but different
opponents, chat history and visibility flag render identically. -/
theorem C7_witness :
    build_flow_text_session ⟨[], example_flow, [], false⟩ =
      build_flow_text_session
        ⟨[⟨"UTG", "tight-passive"⟩], example_flow, [("user", "解析してください")], true⟩ :=
  C7_build_flow_text_deterministic.1 ⟨[], example_flow, [], false⟩
    ⟨[⟨"UTG", "tight-passive"⟩], example_flow, [("user", "解析してください")], true⟩ rfl

/-- Counting: over a duplicate-free catalog, filtering to the members of
a duplicate-free sublist keeps exactly that sublist's length. -/
lemma length_filter_mem : ∀ (u P : List String), P.Nodup → u.Nodup →
    (∀ x ∈ u, x ∈ P) → (P.filter (fun p => p ∈ u)).length = u.length := by
  intro u
  induction u with
  | nil =>
    intro P _ _ _
    simp
  | cons a u ih =>
    intro P hP hu hsub
    have hau : a ∉ u := (List.nodup_cons.mp hu).1
    have hu' : u.Nodup := (List.nodup_cons.mp hu).2
    have haP : a ∈ P := hsub a (List.mem_cons_self a u)
    have hlen : (P.filter (fun p => p ∈ a :: u)).length
        = ((a :: P.erase a).filter (fun p => p ∈ a :: u)).length :=
      ((List.perm_cons_erase haP).filter _).length_eq
    rw [hlen, List.filter_cons_of_pos (by simp), List.length_cons]
    have hcongr : (P.erase a).filter (fun p => p ∈ a :: u)
        = (P.erase a).filter (fun p => p ∈ u) := by
      apply List.filter_congr
      intro x hx
      have hxa : x ≠ a := by
        intro hxa
        subst hxa
        exact (hP.not_mem_erase) hx
      simp [List.mem_cons, hxa]
    rw [hcongr]
    have hsub' : ∀ x ∈ u, x ∈ P.erase a := by
      intro x hx
      have hxa : x ≠ a := fun hxa => hau (hxa ▸ hx)
      exact (List.mem_erase_of_ne hxa).mpr (hsub x (List.mem_cons_of_mem a hx))
    rw [ih (P.erase a) (hP.erase a) hu' hsub']
    simp

/-- Counting complement: removing the members of a duplicate-free sublist
from a duplicate-free catalog leaves catalog-length minus sublist-length
entries. -/
lemma length_filter_not_mem (u P : List String) (hP : P.Nodup) (hu : u.Nodup)
    (hsub : ∀ x ∈ u, x ∈ P) :
    (P.filter (fun p => p ∉ u)).length + u.length = P.length := by
  have h1 := List.length_eq_length_filter_add (l := P) (fun p => decide (p ∈ u))
  have h2 : P.filter (fun p => !decide (p ∈ u)) = P.filter (fun p => p ∉ u) := by
    apply List.filter_congr
    intro x _
    simp [decide_not]
  rw [h2] at h1
  rw [length_filter_mem u P hP hu hsub] at h1
  omega

/-- C5: for a self-position in the catalog and opponents with pairwise
distinct catalog positions all different from the self-position,
`remaining_positions` returns exactly 6 - 1 - |opponents| entries, and
those entries are the catalog minus the self-position minus the opponent
positions, in catalog order. -/
theorem C5_remaining_positions_count (pos_self : String) (villains : List Villain)
    (hself : pos_self ∈ POS_ALL)
    (hnodup : (villains.map Villain.pos).Nodup)
    (hmem : ∀ v ∈ villains, v.pos ∈ POS_ALL)
    (hne : ∀ v ∈ villains, v.pos ≠ pos_self) :
    (remaining_positions pos_self villains).length = 6 - 1 - villains.length
    ∧ remaining_positions pos_self villains
        = POS_ALL.filter (fun p => p ≠ pos_self ∧ p ∉ villains.map Villain.pos) := by
  have hu : (used_pos pos_self villains).Nodup := by
    rw [used_pos, List.nodup_cons]
    refine ⟨?_, hnodup⟩
    intro hmem'
    rcases List.mem_map.mp hmem' with ⟨v, hv, hvp⟩
    exact hne v hv hvp
  have hsub : ∀ x ∈ used_pos pos_self villains, x ∈ POS_ALL := by
    intro x hx
    rcases List.mem_cons.mp hx with h | h
    · subst h
      exact hself
    · rcases List.mem_map.mp h with ⟨v, hv, hvp⟩
      subst hvp
      exact hmem v hv
  constructor
  · have hcount := length_filter_not_mem (used_pos pos_self villains) POS_ALL (by decide) hu hsub
    have hulen : (used_pos pos_self villains).length = villains.length + 1 := by
      simp [used_pos]
    have hP6 : POS_ALL.length = 6 := by decide
    unfold remaining_positions
    omega
  · unfold remaining_positions
    apply List.filter_congr
    intro x _
    rw [decide_eq_decide]
    simp [used_pos, List.mem_cons, not_or]

/-- Witness for C5: self-position BB with opponents at UTG and CO leaves
the 3 positions HJ, BTN, SB in catalog order. -/
theorem C5_witness :
    (remaining_positions "BB" [⟨"UTG", "tight-passive"⟩, ⟨"CO", "loose-aggressive"⟩]).length
        = 6 - 1 - 2
    ∧ remaining_positions "BB" [⟨"UTG", "tight-passive"⟩, ⟨"CO", "loose-aggressive"⟩]
        = POS_ALL.filter (fun p => p ≠ "BB"
            ∧ p ∉ ([⟨"UTG", "tight-passive"⟩, ⟨"CO", "loose-aggressive"⟩] : List Villain).map
                Villain.pos) :=
  C5_remaining_positions_count "BB" [⟨"UTG", "tight-passive"⟩, ⟨"CO", "loose-aggressive"⟩]
    (by decide) (by decide) (by decide) (by decide)

/-- The card catalog has no duplicates. -/
lemma ALL_CARDS_nodup : ALL_CARDS.Nodup := by decide

/-- The card catalog has 52 entries. -/
lemma ALL_CARDS_length : ALL_CARDS.length = 52 := by decide

/-- The head-with-default of a non-empty list is a member. -/
lemma headD_mem_of_ne_nil : ∀ (l : List String), l ≠ [] → l.headD "" ∈ l := by
  intro l h
  cases l with
  | nil => exact absurd rfl h
  | cons a t => simp [List.headD]

/-- The resolved current value of a slot is one of the offered choices. -/
lemma resolve_current_mem (stored : Option String) (choices : List String)
    (h : choices ≠ []) : resolve_current stored choices ∈ choices := by
  cases stored with
  | none => exact headD_mem_of_ne_nil choices h
  | some c =>
    simp only [resolve_current]
    by_cases hc : c ∈ choices
    · rw [if_pos hc]
      exact hc
    · rw [if_neg hc]
      exact headD_mem_of_ne_nil choices h

/-- Whatever the stored value and whatever the user picks, the selected
card is one of the offered choices. -/
lemma pick_card_mem (stored userPick : Option String) (choices : List String)
    (h : choices ≠ []) : pick_card stored userPick choices ∈ choices := by
  cases userPick with
  | none => exact resolve_current_mem stored choices h
  | some u =>
    simp only [pick_card]
    by_cases hu : u ∈ choices
    · rw [if_pos hu]
      exact hu
    · rw [if_neg hu]
      exact resolve_current_mem stored choices h

/-- As long as fewer than 52 cards are excluded, some card remains
selectable. -/
lemma selectable_nonempty (used : List String) (h : used.length < 52) :
    selectable_cards used ≠ [] := by
  intro hnil
  have hall : ∀ c ∈ ALL_CARDS, c ∈ used := by
    intro c hc
    have hc' := (List.filter_eq_nil_iff.mp hnil) c hc
    simpa using hc'
  have hsubF : ALL_CARDS.toFinset ⊆ used.toFinset := by
    intro c hc
    rw [List.mem_toFinset] at hc ⊢
    exact hall c hc
  have h1 : (52 : ℕ) ≤ used.toFinset.card := by
    have hcard : ALL_CARDS.toFinset.card = 52 :=
      (List.toFinset_card_of_nodup ALL_CARDS_nodup).trans ALL_CARDS_length
    calc (52 : ℕ) = ALL_CARDS.toFinset.card := hcard.symm
      _ ≤ used.toFinset.card := Finset.card_le_card hsubF
  have h2 : used.toFinset.card ≤ used.length := List.toFinset_card_le used
  omega

/-- Every card selected during a pass is a catalog card outside the cards
already used, and the selected cards of one pass are pairwise distinct. -/
lemma run_card_selection_spec :
    ∀ (inputs : List (Option String × Option String)) (used : List String),
    used.length + inputs.length ≤ 52 →
    (∀ x ∈ run_card_selection inputs used, x ∈ ALL_CARDS ∧ x ∉ used)
    ∧ (run_card_selection inputs used).Nodup := by
  intro inputs
  induction inputs with
  | nil =>
    intro used _
    refine ⟨?_, List.nodup_nil⟩
    intro x hx
    simp [run_card_selection] at hx
  | cons p rest ih =>
    rcases p with ⟨stored, userPick⟩
    intro used h
    have hlt : used.length < 52 := by
      simp only [List.length_cons] at h
      omega
    have hne : selectable_cards used ≠ [] := selectable_nonempty used hlt
    have hcmem : pick_card stored userPick (selectable_cards used) ∈ selectable_cards used :=
      pick_card_mem _ _ _ hne
    set c := pick_card stored userPick (selectable_cards used) with hc
    have hcall : c ∈ ALL_CARDS ∧ c ∉ used := by
      have hmf := List.mem_filter.mp hcmem
      exact ⟨hmf.1, by simpa using hmf.2⟩
    have hrec := ih (used ++ [c]) (by
      simp only [List.length_append, List.length_cons, List.length_nil] at h ⊢
      omega)
    have hshape : run_card_selection ((stored, userPick) :: rest) used
        = c :: run_card_selection rest (used ++ [c]) := rfl
    rw [hshape]
    constructor
    · intro x hx
      rcases List.mem_cons.mp hx with hx | hx
      · subst hx
        exact hcall
      · have hx' := hrec.1 x hx
        refine ⟨hx'.1, fun hxu => hx'.2 ?_⟩
        simp [hxu]
    · rw [List.nodup_cons]
      refine ⟨?_, hrec.2⟩
      intro hcint
      have hcnot := hrec.1 c hcint
      apply hcnot.2
      simp

/-- C3: after any pass over the seven card slots (hero 1, hero 2,
flop 1-3, turn, river) resolved through the slot-selection rule — each
slot's choices exclude the cards of the earlier slots, a stored value no
longer offered falls back to the first available card — the seven
selected values are pairwise distinct cards of the 52-card catalog. -/
theorem C3_seven_card_slots_distinct (inputs : List (Option String × Option String))
    (h : inputs.length = 7) :
    (run_card_selection inputs []).Nodup
    ∧ ∀ x ∈ run_card_selection inputs [], x ∈ ALL_CARDS := by
  have hspec := run_card_selection_spec inputs [] (by rw [h]; simp)
  exact ⟨hspec.2, fun x hx => (hspec.1 x hx).1⟩

/-- Witness for C3: seven slots all storing A♠ (so every slot after the
first falls back to the first available card) yield seven pairwise
distinct catalog cards. -/
theorem C3_witness :
    (run_card_selection (List.replicate 7 (some "A♠", (none : Option String))) []).Nodup
    ∧ ∀ x ∈ run_card_selection (List.replicate 7 (some "A♠", (none : Option String))) [],
        x ∈ ALL_CARDS :=
  C3_seven_card_slots_distinct (List.replicate 7 (some "A♠", (none : Option String))) (by decide)

/-- C8 counterexample: with the client constructed and the credential
set, a call with an empty hero-card list does not return a displayable
string — the subscript `hero_cards[0]` in the prompt f-string is
evaluated outside the `try` block, so an IndexError escapes the call. -/
theorem C8_counterexample :
    call_gpt true "sk-test" "初級" [] [] [] "" (Except.ok (some "advice"))
      = Except.error "IndexError: list index out of range" := rfl

/-- C8 (amended): for every input whose hero-card list has at least two
entries, `call_gpt` returns a displayable string and never raises:
a missing credential yields the configuration warning; a transport or
provider exception yields an error message embedding the cause; a
successful call yields the reply, or the placeholder when the reply is
null or empty.  (With fewer than two hero cards and a configured
credential the call raises IndexError, see the counterexample; the UI
always supplies exactly two.) -/
theorem C8_call_gpt_amended (clientOk : Bool) (apiKey level h1 h2 : String)
    (rest board : List String) (villains : List Villain) (flow_text : String)
    (transport : Except String (Option String)) :
    ∃ s : String,
      call_gpt clientOk apiKey level (h1 :: h2 :: rest) board villains flow_text transport
          = Except.ok s
      ∧ ((clientOk = false ∨ apiKey = "") → s = CONFIG_WARNING)
      ∧ (clientOk = true → apiKey ≠ "" →
          ((∀ e, transport = Except.error e → s = "LLM呼び出しエラー: " ++ e)
           ∧ (∀ r, transport = Except.ok (some r) → r ≠ "" → s = r)
           ∧ ((transport = Except.ok none ∨ transport = Except.ok (some "")) →
                s = EMPTY_REPLY))) := by
  by_cases hmiss : clientOk = false ∨ apiKey = ""
  · refine ⟨CONFIG_WARNING, ?_, fun _ => rfl, ?_⟩
    · unfold call_gpt
      rw [if_pos hmiss]
    · intro hok hkey
      rcases hmiss with h | h
      · rw [hok] at h
        exact absurd h (by simp)
      · exact absurd h hkey
  · cases transport with
    | error e =>
      have hcg : call_gpt clientOk apiKey level (h1 :: h2 :: rest) board villains flow_text
          (Except.error e) = Except.ok ("LLM呼び出しエラー: " ++ e) := by
        unfold call_gpt
        rw [if_neg hmiss]
      refine ⟨"LLM呼び出しエラー: " ++ e, hcg, fun hm => absurd hm hmiss, ?_⟩
      intro _ _
      refine ⟨?_, ?_, ?_⟩
      · intro e' he'
        have he2 : e = e' := by
          injection he'
        rw [he2]
      · intro r hr _
        exact absurd hr (by simp)
      · intro hor
        rcases hor with hk | hk <;> exact absurd hk (by simp)
    | ok content =>
      cases content with
      | none =>
        have hcg : call_gpt clientOk apiKey level (h1 :: h2 :: rest) board villains flow_text
            (Except.ok none) = Except.ok EMPTY_REPLY := by
          unfold call_gpt
          rw [if_neg hmiss]
        refine ⟨EMPTY_REPLY, hcg, fun hm => absurd hm hmiss, ?_⟩
        intro _ _
        refine ⟨?_, ?_, fun _ => rfl⟩
        · intro e he
          exact absurd he (by simp)
        · intro r hr _
          exact absurd hr (by simp)
      | some r =>
        by_cases hre : r = ""
        · subst hre
          refine ⟨EMPTY_REPLY, ?_, fun hm => absurd hm hmiss, ?_⟩
          · unfold call_gpt
            rw [if_neg hmiss]
            simp
          · intro _ _
            refine ⟨?_, ?_, fun _ => rfl⟩
            · intro e he
              exact absurd he (by simp)
            · intro r' hr' hne'
              have hr2 : "" = r' := by
                simpa using hr'
              exact absurd hr2.symm hne'
        · refine ⟨r, ?_, fun hm => absurd hm hmiss, ?_⟩
          · unfold call_gpt
            rw [if_neg hmiss]
            simp [hre]
          · intro _ _
            refine ⟨?_, ?_, ?_⟩
            · intro e he
              exact absurd he (by simp)
            · intro r' hr' _
              have hr2 : r = r' := by
                simpa using hr'
              rw [hr2]
            · intro hor
              rcases hor with hk | hk
              · exact absurd hk (by simp)
              · have hr2 : r = "" := by
                  simpa using hk
                exact absurd hr2 hre

/-- Witness for C8: a configured credential and a transport exception
"boom" produce the displayable error string. -/
theorem C8_witness :
    ∃ s : String,
      call_gpt true "sk-test" "中級" ("A♠" :: "K♠" :: []) [] [] ""
          (Except.error "boom")
        = Except.ok s
      ∧ ((true = false ∨ "sk-test" = "") → s = CONFIG_WARNING)
      ∧ (true = true → "sk-test" ≠ "" →
          ((∀ e, (Except.error "boom" : Except String (Option String)) = Except.error e →
              s = "LLM呼び出しエラー: " ++ e)
           ∧ (∀ r, (Except.error "boom" : Except String (Option String)) = Except.ok (some r) →
              r ≠ "" → s = r)
           ∧ (((Except.error "boom" : Except String (Option String)) = Except.ok none
                ∨ (Except.error "boom" : Except String (Option String)) = Except.ok (some "")) →
              s = EMPTY_REPLY))) :=
  C8_call_gpt_amended true "sk-test" "中級" "A♠" "K♠" [] [] [] "" (Except.error "boom")
